import Mathlib

/-!
Verification of the `discovery` package of the bitcoinx repository.

The package implements a discovery server on top of an IPFS overlay node:
`Start`/`Stop` (lifecycle), `dhtConnect` (bootstrap task), `Publish`/`Join`
(content publisher/resolver) and `Announce`/`Peers` (provider registry and
peer-info exchange).  External collaborators (the IPFS repo, unixfs store,
DHT, libp2p host and operating system calls) are modelled as oracles
supplied to each operation; the control flow, the literal constants, the
error wrapping and the event ordering are translated from the Go source.
-/

namespace Discovery

/-! ## Data model (`PeerInfo`, `NetworkInfo`) -/

/-- PeerInfo as in the source: `NodeID string`, `IP []string` (a Go slice,
whose `nil` value is modelled as `none`), `TendermintP2PPort int`. -/
structure PeerInfo where
  NodeID : String
  IP : Option (List String)
  TendermintP2PPort : Int
deriving DecidableEq, Repr

/-- NetworkInfo as in the source: manifest and genesis are fully read
buffers (byte lists); the image stays an open stream, modelled by the
numeric handle the content store returned. -/
structure NetworkInfo where
  Manifest : List Nat
  Genesis : List Nat
  Image : Nat
deriving DecidableEq, Repr

/-- The fixed, hard-coded IPFS bootstrap peer addresses of the source. -/
def bootstrapPeers : List String :=
  ["/ip4/104.131.131.82/tcp/4001/ipfs/QmaCpDMGvV2BGHeYERUEnRQAwe3N8SzbUtfsmvsqQLuvuJ",
   "/ip4/104.236.179.241/tcp/4001/ipfs/QmSoLPppuBtQSGwKDZT2M73ULpjvfd3aZ6ha4oFGL1KrGM",
   "/ip4/104.236.76.40/tcp/4001/ipfs/QmSoLV4Bbm51jM9C4gDYZQ9Cy3U6aXMJDAbzgu2fzaDs64",
   "/ip4/128.199.219.111/tcp/4001/ipfs/QmSoLSafTMBsPKadTEgaXctDQVcqN88CNLHXMkTNwMKPnu",
   "/ip4/178.62.158.247/tcp/4001/ipfs/QmSoLer265NRgSp2LA3dPaeykiS1J6DifTC88f5uVQKNAd"]

/-- The fixed protocol identifier of the peer-info exchange stream. -/
def protocolID : String := "/chainkit/0.1.0"

/-! ## Bootstrap task (`dhtConnect`)

The Go function iterates over `bootstrapPeers`, attempts a connection to
each (a failure is logged and the loop continues) and, by the deferred
`close(s.connectedCh)`, closes the readiness channel when the loop is done. -/

/-- Observable events of one run of the bootstrap task. -/
inductive BootEvent
  | attempt (addr : String) (ok : Bool)
  | closeReady
deriving DecidableEq, Repr

/-- Event trace of `dhtConnect`: one connection attempt per hard-coded
bootstrap address (the oracle `connect` gives each attempt's outcome;
failures only log and continue), then the deferred close of the
readiness channel. -/
def dhtConnect (connect : String → Bool) : List BootEvent :=
  (bootstrapPeers.map fun a => BootEvent.attempt a (connect a)) ++
    [BootEvent.closeReady]

/-- A receive from the readiness channel blocks exactly while the channel
has not been closed; after a trace containing `closeReady`, no waiter
(past or future) blocks. -/
def waitBlocks (trace : List BootEvent) : Prop :=
  BootEvent.closeReady ∉ trace

instance (trace : List BootEvent) : Decidable (waitBlocks trace) := by
  unfold waitBlocks; infer_instance

/-! ## Provider registry (`Announce`)

`Announce` first receives from the readiness channel, then decodes the
chain identifier (a failure returns the decode error), registers the
peer-info stream handler on `protocolID`, and finally calls
`dht.Provide` under a `context.WithTimeout(ctx, 10*time.Second)`. -/

/-- Timeout, in seconds, of the `Provide` call (`10*time.Second`). -/
def provideTimeoutSeconds : Nat := 10

/-- Observable events of one `Announce` call. -/
inductive AnnEvent
  | waitReady
  | setHandler (protocol : String)
  | provide (cidStr : String) (timeoutSeconds : Nat)
deriving DecidableEq, Repr

/-- Event trace and success flag of `Announce`.  `cidDecode` models
`cid.Decode` (`none` = decode error, in which case `Announce` returns the
error right after the readiness wait); `provideOk` models the outcome of
the DHT `Provide` call. -/
def Announce (cidDecode : String → Option String) (provideOk : Bool)
    (chainID : String) : List AnnEvent × Bool :=
  match cidDecode chainID with
  | none => ([AnnEvent.waitReady], false)
  | some c =>
      ([AnnEvent.waitReady, AnnEvent.setHandler protocolID,
        AnnEvent.provide c provideTimeoutSeconds], provideOk)

/-! ## Provider registry (`Peers`)

`Peers` receives from the readiness channel, decodes the chain identifier
(returning `(nil, err)` on failure), then starts one background producer:
`FindProvidersAsync(tctx, id, 10)` under a 10-second timeout, a loop over
the candidate providers the DHT channel delivers before it closes, and a
deferred `close(ch)`.  A candidate is processed only when its peer ID
differs from the local host ID and its address list is non-empty; then a
stream is opened on `protocolID` (failure: `continue`), one JSON
`PeerInfo` is decoded (failure: log and `continue`), a `nil` IP slice is
replaced by an empty one, the IPv4 values of the candidate's addresses
are appended, and the record is sent on the channel. -/

/-- Limit passed to `FindProvidersAsync` in the source. -/
def findProvidersLimit : Nat := 10

/-- Timeout, in seconds, of the find-providers context
(`10*time.Second`). -/
def findProvidersTimeoutSeconds : Nat := 10

/-- A provider record delivered by the DHT: peer ID and multiaddresses. -/
structure Candidate where
  id : String
  addrs : List String
deriving DecidableEq, Repr

/-- Outcome of the per-candidate exchange: `NewStream` may fail, the JSON
decode may fail, or a wire `PeerInfo` record is obtained. -/
inductive ExchangeResult
  | streamOpenFailed
  | decodeFailed
  | ok (w : PeerInfo)
deriving DecidableEq, Repr

/-- Observable events of the `Peers` call and its producer task. -/
inductive PeersEvent
  | waitReady
  | findProviders (cidStr : String) (limit : Nat) (timeoutSeconds : Nat)
  | newStream (peerID : String) (protocol : String)
  | emit (r : PeerInfo)
  | closeCh
deriving DecidableEq, Repr

/-- IPv4 components extracted from a candidate's addresses, as in the
source loop: `ValueForProtocol(P_IP4)` errors and empty values are
skipped (`ipv4` is the extraction oracle, `none` = error). -/
def observedIPv4 (ipv4 : String → Option String) (addrs : List String) :
    List String :=
  addrs.filterMap fun a =>
    match ipv4 a with
    | none => none
    | some v => if v = "" then none else some v

/-- The source's `if peer.IP == nil { peer.IP = []string{} }`. -/
def fixNilIP (w : PeerInfo) : PeerInfo :=
  match w.IP with
  | none => { w with IP := some [] }
  | some _ => w

/-- The record sent on the channel for a candidate whose exchange decoded
`w`: the nil-fixed wire record, its IP list extended with the IPv4
addresses observed for the candidate. -/
def emittedRecord (ipv4 : String → Option String) (c : Candidate)
    (w : PeerInfo) : PeerInfo :=
  { fixNilIP w with
    IP := some ((fixNilIP w).IP.getD [] ++ observedIPv4 ipv4 c.addrs) }

/-- Events one candidate contributes to the producer trace. -/
def candidateEvents (localID : String) (exchange : String → ExchangeResult)
    (ipv4 : String → Option String) (c : Candidate) : List PeersEvent :=
  if c.id ≠ localID ∧ 0 < c.addrs.length then
    PeersEvent.newStream c.id protocolID ::
      match exchange c.id with
      | ExchangeResult.streamOpenFailed => []
      | ExchangeResult.decodeFailed => []
      | ExchangeResult.ok w => [PeersEvent.emit (emittedRecord ipv4 c w)]
  else []

/-- Trace of the producer task over the (finite) candidate list the DHT
channel delivers before closing, ending with the deferred channel close. -/
def peersProducerTrace (localID : String) (exchange : String → ExchangeResult)
    (ipv4 : String → Option String) (candidates : List Candidate) :
    List PeersEvent :=
  (candidates.flatMap (candidateEvents localID exchange ipv4)) ++
    [PeersEvent.closeCh]

/-- Event trace and success flag of a whole `Peers` call. -/
def Peers (cidDecode : String → Option String) (localID : String)
    (exchange : String → ExchangeResult) (ipv4 : String → Option String)
    (chainID : String) (candidates : List Candidate) :
    List PeersEvent × Bool :=
  match cidDecode chainID with
  | none => ([PeersEvent.waitReady], false)
  | some c =>
      (PeersEvent.waitReady ::
        PeersEvent.findProviders c findProvidersLimit findProvidersTimeoutSeconds ::
        peersProducerTrace localID exchange ipv4 candidates, true)

/-- The record an `emit` event carries, if any. -/
def emitOf (e : PeersEvent) : Option PeerInfo :=
  match e with
  | PeersEvent.emit r => some r
  | _ => none

/-- Records one candidate contributes to the output channel. -/
def candidateEmits (localID : String) (exchange : String → ExchangeResult)
    (ipv4 : String → Option String) (c : Candidate) : List PeerInfo :=
  (candidateEvents localID exchange ipv4 c).filterMap emitOf

/-- All records the producer task sends on the output channel. -/
def peersEmitted (localID : String) (exchange : String → ExchangeResult)
    (ipv4 : String → Option String) (candidates : List Candidate) :
    List PeerInfo :=
  (peersProducerTrace localID exchange ipv4 candidates).filterMap emitOf

/-! ## Content publisher (`Publish`)

`Publish` creates a temp sandbox directory, stats it, hard-links the
manifest to `<sandbox>/chainkit.yml`, the genesis to
`<sandbox>/genesis.json` and the image to `<sandbox>/image.tgz` (each
failure returns immediately), wraps the sandbox as a serial file and
submits it to `Unixfs().Add`, returning the resulting CID string.  The
second component of the result is the ghost list of `(child name, source
path)` pairs linked into the sandbox, i.e. the children of the staged
content-addressed unit. -/

/-- Oracles for the OS and content-store calls `Publish` makes. -/
structure PublishEnv where
  tempDir : Except String String
  stat : String → Except String Unit
  link : String → String → Except String Unit
  unixfsAdd : String → List (String × String) → Except String String

/-- Go's `path.Join(dir, name)` for a clean directory and a simple name. -/
def pathJoin (dir name : String) : String := dir ++ "/" ++ name

/-- The content publisher, translated match-by-match from the source. -/
def Publish (env : PublishEnv) (manifestPath genesisPath imagePath : String) :
    Except String String × List (String × String) :=
  match env.tempDir with
  | Except.error e => (Except.error e, [])
  | Except.ok sandbox =>
    match env.stat sandbox with
    | Except.error e => (Except.error e, [])
    | Except.ok _ =>
      match env.link manifestPath (pathJoin sandbox "chainkit.yml") with
      | Except.error e => (Except.error e, [])
      | Except.ok _ =>
        match env.link genesisPath (pathJoin sandbox "genesis.json") with
        | Except.error e => (Except.error e, [("chainkit.yml", manifestPath)])
        | Except.ok _ =>
          match env.link imagePath (pathJoin sandbox "image.tgz") with
          | Except.error e =>
              (Except.error e,
               [("chainkit.yml", manifestPath), ("genesis.json", genesisPath)])
          | Except.ok _ =>
            match env.unixfsAdd sandbox
                [("chainkit.yml", manifestPath), ("genesis.json", genesisPath),
                 ("image.tgz", imagePath)] with
            | Except.error e =>
                (Except.error e,
                 [("chainkit.yml", manifestPath), ("genesis.json", genesisPath),
                  ("image.tgz", imagePath)])
            | Except.ok cidStr =>
                (Except.ok cidStr,
                 [("chainkit.yml", manifestPath), ("genesis.json", genesisPath),
                  ("image.tgz", imagePath)])

/-! ## Content resolver (`Join`)

`Join` parses and fetches `/ipfs/<chainID>/chainkit.yml`, reads it fully
(a read failure is wrapped by the source as `"unable to read genesis
file"` — for the manifest as well), does the same for
`/ipfs/<chainID>/genesis.json`, then parses `/ipfs/<chainID>/image.tgz`
WITHOUT checking the parse error (the `err` of that `ParsePath` is
overwritten by the following `Get`, whose error is checked), and returns
the `NetworkInfo` with the image left as an open stream.  The second
component of the result is the ghost list of paths passed to
`Unixfs().Get`, in order. -/

/-- Oracles for the path parser and content store `Join` consumes.
`get` returns a numeric handle of the opened content stream; `readAll`
reads a handle to completion. -/
structure JoinEnv where
  parsePath : String → Except String String
  get : String → Except String Nat
  readAll : Nat → Except String (List Nat)

/-- The `/ipfs/<chainID>/<name>` path `Join` builds with `path.Join`. -/
def joinPath (chainID name : String) : String :=
  "/ipfs/" ++ chainID ++ "/" ++ name

/-- The content resolver, translated match-by-match from the source,
including the `errors.Wrap(err, "unable to read genesis file")` applied
to BOTH read failures and the unchecked parse error of the image path. -/
def Join (env : JoinEnv) (chainID : String) :
    Except String NetworkInfo × List String :=
  match env.parsePath (joinPath chainID "chainkit.yml") with
  | Except.error e => (Except.error e, [])
  | Except.ok manifestPath =>
    match env.get manifestPath with
    | Except.error e => (Except.error e, [manifestPath])
    | Except.ok manifestFile =>
      match env.readAll manifestFile with
      | Except.error e =>
          (Except.error ("unable to read genesis file: " ++ e), [manifestPath])
      | Except.ok manifestData =>
        match env.parsePath (joinPath chainID "genesis.json") with
        | Except.error e => (Except.error e, [manifestPath])
        | Except.ok genesisPath =>
          match env.get genesisPath with
          | Except.error e => (Except.error e, [manifestPath, genesisPath])
          | Except.ok genesisFile =>
            match env.readAll genesisFile with
            | Except.error e =>
                (Except.error ("unable to read genesis file: " ++ e),
                 [manifestPath, genesisPath])
            | Except.ok genesisData =>
              match env.get ((env.parsePath
                  (joinPath chainID "image.tgz")).toOption.getD "") with
              | Except.error e =>
                  (Except.error e,
                   [manifestPath, genesisPath,
                    (env.parsePath (joinPath chainID "image.tgz")).toOption.getD ""])
              | Except.ok imageFile =>
                  (Except.ok
                    { Manifest := manifestData, Genesis := genesisData,
                      Image := imageFile },
                   [manifestPath, genesisPath,
                    (env.parsePath (joinPath chainID "image.tgz")).toOption.getD ""])

/-! ## Lifecycle (`Start`)

`Start` checks the repo lock, loads plugins, initializes the repo on
first use, opens the repo, sets the swarm addresses, constructs the node
(which takes ownership of the repo), constructs the DHT and spawns the
bootstrap task.  Each step's outcome is an oracle; the second component
of the result is the list of resources still open when `Start` returns
(the successfully constructed node is the expected one on success —
`Stop` closes it). -/

/-- Resources `Start` can leave open. Once the node is constructed it
owns the repo, so `node` subsumes `repo`. -/
inductive Resource
  | repo
  | node
deriving DecidableEq, Repr

/-- Oracles for each fallible step of `Start`. -/
structure StartEnv where
  lockedByOtherProcess : Except String Bool
  loadPlugins : Except String Unit
  isInitialized : Bool
  ipfsInit : Except String Unit
  openRepo : Except String Unit
  setConfigKey : Except String Unit
  newNode : Except String Unit
  dhtNew : Except String Unit

/-- The lifecycle entry point, translated step-by-step from the source.
No step of the source releases a previously opened resource on a failure
path, so the open-resource ghost only ever grows until the node takes
over the repo. -/
def Start (env : StartEnv) : Except String Unit × List Resource :=
  match env.lockedByOtherProcess with
  | Except.error e => (Except.error e, [])
  | Except.ok locked =>
    if locked then
      (Except.error "another instance is already accessing the root", [])
    else
      match env.loadPlugins with
      | Except.error e => (Except.error e, [])
      | Except.ok _ =>
        match (if env.isInitialized then Except.ok () else env.ipfsInit) with
        | Except.error e => (Except.error e, [])
        | Except.ok _ =>
          match env.openRepo with
          | Except.error e => (Except.error e, [])
          | Except.ok _ =>
            match env.setConfigKey with
            | Except.error e => (Except.error e, [Resource.repo])
            | Except.ok _ =>
              match env.newNode with
              | Except.error e => (Except.error e, [Resource.repo])
              | Except.ok _ =>
                match env.dhtNew with
                | Except.error e => (Except.error e, [Resource.node])
                | Except.ok _ => (Except.ok (), [Resource.node])

/-! ## Helper lemmas -/

theorem emittedRecord_NodeID (ipv4 : String → Option String) (c : Candidate)
    (w : PeerInfo) : (emittedRecord ipv4 c w).NodeID = w.NodeID := by
  cases w with
  | mk n ip p => cases ip <;> rfl

theorem emittedRecord_IP (ipv4 : String → Option String) (c : Candidate)
    (w : PeerInfo) :
    (emittedRecord ipv4 c w).IP =
      some (w.IP.getD [] ++ observedIPv4 ipv4 c.addrs) := by
  cases w with
  | mk n ip p => cases ip <;> rfl

theorem candidateEmits_eq (localID : String) (exchange : String → ExchangeResult)
    (ipv4 : String → Option String) (c : Candidate) :
    candidateEmits localID exchange ipv4 c =
      if c.id ≠ localID ∧ 0 < c.addrs.length then
        match exchange c.id with
        | ExchangeResult.ok w => [emittedRecord ipv4 c w]
        | _ => []
      else [] := by
  by_cases h : c.id ≠ localID ∧ 0 < c.addrs.length
  · simp only [candidateEmits, candidateEvents, if_pos h]
    cases exchange c.id <;> rfl
  · simp only [candidateEmits, candidateEvents, if_neg h]
    rfl

theorem filterMap_emitOf_flatMap {α β γ : Type} (f : α → List β) (g : β → Option γ) :
    ∀ l : List α, (l.flatMap f).filterMap g = l.flatMap fun a => (f a).filterMap g
  | [] => rfl
  | a :: l => by
      simp [List.flatMap_cons, List.filterMap_append, filterMap_emitOf_flatMap f g l]

theorem peersEmitted_eq_flatMap (localID : String)
    (exchange : String → ExchangeResult) (ipv4 : String → Option String)
    (candidates : List Candidate) :
    peersEmitted localID exchange ipv4 candidates =
      candidates.flatMap (candidateEmits localID exchange ipv4) := by
  unfold peersEmitted peersProducerTrace candidateEmits
  rw [List.filterMap_append, filterMap_emitOf_flatMap]
  simp [emitOf]

theorem producer_trace_shape (localID : String)
    (exchange : String → ExchangeResult) (ipv4 : String → Option String)
    (candidates : List Candidate) :
    ∀ e ∈ peersProducerTrace localID exchange ipv4 candidates,
      e = PeersEvent.closeCh ∨
      (∃ p, e = PeersEvent.newStream p protocolID ∧ p ≠ localID) ∨
      ∃ r, e = PeersEvent.emit r := by
  intro e he
  unfold peersProducerTrace at he
  rcases List.mem_append.1 he with h | h
  · rcases List.mem_flatMap.1 h with ⟨c, _, he⟩
    unfold candidateEvents at he
    by_cases hcond : c.id ≠ localID ∧ 0 < c.addrs.length
    · rw [if_pos hcond] at he
      rcases List.mem_cons.1 he with h1 | h1
      · exact Or.inr (Or.inl ⟨c.id, h1, hcond.1⟩)
      · cases hex : exchange c.id <;> rw [hex] at h1
        · cases h1
        · cases h1
        · rcases List.mem_singleton.1 h1 with h2
          exact Or.inr (Or.inr ⟨_, h2⟩)
    · rw [if_neg hcond] at he
      cases he
  · rcases List.mem_singleton.1 h with h2
    exact Or.inl h2

theorem mem_peersEmitted (localID : String)
    (exchange : String → ExchangeResult) (ipv4 : String → Option String)
    (candidates : List Candidate) (r : PeerInfo) :
    r ∈ peersEmitted localID exchange ipv4 candidates →
    ∃ c, c ∈ candidates ∧ c.id ≠ localID ∧ 0 < c.addrs.length ∧
      ∃ w, exchange c.id = ExchangeResult.ok w ∧ r = emittedRecord ipv4 c w := by
  intro hr
  rw [peersEmitted_eq_flatMap] at hr
  rcases List.mem_flatMap.1 hr with ⟨c, hc, hr⟩
  rw [candidateEmits_eq] at hr
  by_cases hcond : c.id ≠ localID ∧ 0 < c.addrs.length
  · rw [if_pos hcond] at hr
    cases hex : exchange c.id <;> rw [hex] at hr
    · cases hr
    · cases hr
    · rcases List.mem_singleton.1 hr with h2
      exact ⟨c, hc, hcond.1, hcond.2, _, hex, h2⟩
  · rw [if_neg hcond] at hr
    cases hr

/-! ## Claim theorems -/

/-- C3: for every run of the bootstrap task, whatever the outcome of each
of the fixed entry-peer connection attempts (including all failing), the
trace is exactly the connection attempts followed by one closing of the
readiness channel — so the one-time signal is emitted exactly once, after
all attempts complete — after which no waiter blocks; and both `Announce`
and `Peers` wait on the readiness channel as their first step, before any
DHT call (`provide` / `findProviders` never occur at index 0). -/
theorem c3_readiness_fires_once_after_attempts :
    ∀ connect : String → Bool,
      (dhtConnect connect =
        (bootstrapPeers.map fun a => BootEvent.attempt a (connect a)) ++
          [BootEvent.closeReady] ∧
       BootEvent.closeReady ∉
         (bootstrapPeers.map fun a => BootEvent.attempt a (connect a))) ∧
      ¬ waitBlocks (dhtConnect connect) ∧
      (∀ cidDecode provideOk chainID,
        (Announce cidDecode provideOk chainID).1.head? =
            some AnnEvent.waitReady ∧
          ∀ i c t, (Announce cidDecode provideOk chainID).1.get? i =
              some (AnnEvent.provide c t) → 0 < i) ∧
      (∀ cidDecode localID exchange ipv4 chainID candidates,
        (Peers cidDecode localID exchange ipv4 chainID candidates).1.head? =
            some PeersEvent.waitReady ∧
          ∀ i c l t,
            (Peers cidDecode localID exchange ipv4 chainID candidates).1.get? i =
              some (PeersEvent.findProviders c l t) → 0 < i) := by
  intro connect
  refine ⟨⟨rfl, ?_⟩, ?_, ?_, ?_⟩
  · simp [bootstrapPeers]
  · simp [waitBlocks, dhtConnect]
  · intro cidDecode provideOk chainID
    constructor
    · cases hc : cidDecode chainID <;> simp [Announce, hc]
    · intro i c t h
      cases i with
      | zero => cases hc : cidDecode chainID <;> simp [Announce, hc] at h
      | succ n => exact Nat.succ_pos n
  · intro cidDecode localID exchange ipv4 chainID candidates
    constructor
    · cases hc : cidDecode chainID <;> simp [Peers, hc]
    · intro i c l t h
      cases i with
      | zero => cases hc : cidDecode chainID <;> simp [Peers, hc] at h
      | succ n => exact Nat.succ_pos n

/-- C3 witness: concrete run in which every bootstrap attempt fails —
the trace is still the five attempts followed by the single readiness
close, and a concrete `Announce` still waits first. -/
theorem c3_witness :
    dhtConnect (fun _ => false) =
      (bootstrapPeers.map fun a => BootEvent.attempt a false) ++
        [BootEvent.closeReady] ∧
    (Announce (fun s => some s) true "QmW").1.head? = some AnnEvent.waitReady :=
  ⟨(c3_readiness_fires_once_after_attempts (fun _ => false)).1.1,
   ((c3_readiness_fires_once_after_attempts (fun _ => false)).2.2.1
      (fun s => some s) true "QmW").1⟩

/-- C6: in every `Announce` call whose trace reaches the DHT `Provide`
call, the registration of the peer-info stream handler on the fixed
protocol identifier occurs at a strictly earlier position of the trace. -/
theorem c6_handler_registered_before_provide :
    ∀ (cidDecode : String → Option String) (provideOk : Bool)
      (chainID c : String) (t : Nat),
      AnnEvent.provide c t ∈ (Announce cidDecode provideOk chainID).1 →
      (1 : Nat) < 2 ∧
        (Announce cidDecode provideOk chainID).1.get? 1 =
          some (AnnEvent.setHandler protocolID) ∧
        (Announce cidDecode provideOk chainID).1.get? 2 =
          some (AnnEvent.provide c t) := by
  intro cidDecode provideOk chainID c t hmem
  cases hc : cidDecode chainID with
  | none => simp [Announce, hc] at hmem
  | some c0 =>
      simp [Announce, hc] at hmem
      obtain ⟨h1, h2⟩ := hmem
      subst h1; subst h2
      exact ⟨by omega, by simp [Announce, hc], by simp [Announce, hc]⟩

/-- C6 witness: a concrete successful `Announce` with handler
registration at trace position 1, strictly before the `Provide` call at
position 2. -/
theorem c6_witness :
    (1 : Nat) < 2 ∧
      (Announce (fun s => some s) true "QmX").1.get? 1 =
        some (AnnEvent.setHandler protocolID) ∧
      (Announce (fun s => some s) true "QmX").1.get? 2 =
        some (AnnEvent.provide "QmX" provideTimeoutSeconds) :=
  c6_handler_registered_before_provide (fun s => some s) true "QmX" "QmX"
    provideTimeoutSeconds (by decide)

/-- Concrete exchange oracle: the remote peer (DHT identity distinct from
the local one) replies with a wire record whose `node_id` equals the
LOCAL node's identity. -/
def c4Exchange : String → ExchangeResult := fun _ =>
  ExchangeResult.ok { NodeID := "LOCALNODE", IP := some [], TendermintP2PPort := 26656 }

/-- C4 counterexample: the candidate `REMOTE1` passes the self-filter
(its DHT peer ID differs from the local host ID `LOCALNODE`), but its
wire reply carries `node_id = "LOCALNODE"`, and `Peers` emits that record
verbatim — a record whose `NodeID` equals the local identity IS emitted,
refuting the claim. -/
theorem c4_counterexample :
    peersEmitted "LOCALNODE" c4Exchange (fun _ => none)
        [{ id := "REMOTE1", addrs := ["/ip4/1.2.3.4/tcp/4001"] }] =
      [{ NodeID := "LOCALNODE", IP := some [], TendermintP2PPort := 26656 }] := by
  decide

/-- C4 amended: candidates whose DHT peer ID equals the local host ID are
filtered before the exchange — no stream is ever opened towards the local
identity — but the `NodeID` of an emitted record is taken verbatim from
the remote peer's wire reply and is NOT checked against the local
identity. -/
theorem c4_self_filtered_but_wire_node_id_unchecked :
    ∀ (localID : String) (exchange : String → ExchangeResult)
      (ipv4 : String → Option String) (candidates : List Candidate),
      PeersEvent.newStream localID protocolID ∉
        peersProducerTrace localID exchange ipv4 candidates ∧
      ∀ r ∈ peersEmitted localID exchange ipv4 candidates,
        ∃ c, c ∈ candidates ∧ c.id ≠ localID ∧ 0 < c.addrs.length ∧
          ∃ w, exchange c.id = ExchangeResult.ok w ∧ r.NodeID = w.NodeID := by
  intro localID exchange ipv4 candidates
  constructor
  · intro hmem
    rcases producer_trace_shape localID exchange ipv4 candidates _ hmem with
      h | ⟨p, hp, hne⟩ | ⟨r, hr⟩
    · cases h
    · cases hp
      exact hne rfl
    · cases hr
  · intro r hr
    rcases mem_peersEmitted localID exchange ipv4 candidates r hr with
      ⟨c, hc, hne, hlen, w, hex, heq⟩
    exact ⟨c, hc, hne, hlen, w, hex, heq ▸ emittedRecord_NodeID ipv4 c w⟩

/-- C4 amended witness: the concrete record emitted for `REMOTE1` traces
back to a candidate that passed the self-filter and to the verbatim wire
reply. -/
theorem c4_amended_witness :
    ∃ c, c ∈ ([{ id := "REMOTE1", addrs := ["/ip4/1.2.3.4/tcp/4001"] }] :
          List Candidate) ∧
      c.id ≠ "LOCALNODE" ∧ 0 < c.addrs.length ∧
      ∃ w, c4Exchange c.id = ExchangeResult.ok w ∧
        ({ NodeID := "LOCALNODE", IP := some [],
           TendermintP2PPort := 26656 } : PeerInfo).NodeID = w.NodeID :=
  (c4_self_filtered_but_wire_node_id_unchecked "LOCALNODE" c4Exchange
      (fun _ => none) [{ id := "REMOTE1", addrs := ["/ip4/1.2.3.4/tcp/4001"] }]).2
    { NodeID := "LOCALNODE", IP := some [], TendermintP2PPort := 26656 }
    (by decide)

/-- C7: a candidate whose stream open or JSON decode fails contributes
nothing to the output sequence, while every record of the candidates
before and after it is still delivered; and the success of the `Peers`
call itself depends only on the chain-identifier decode, never on
per-candidate failures. -/
theorem c7_per_candidate_failures_skipped :
    ∀ (localID : String) (exchange : String → ExchangeResult)
      (ipv4 : String → Option String) (pre post : List Candidate)
      (bad : Candidate),
      (∀ w, exchange bad.id ≠ ExchangeResult.ok w) →
      peersEmitted localID exchange ipv4 (pre ++ bad :: post) =
        peersEmitted localID exchange ipv4 pre ++
          peersEmitted localID exchange ipv4 post ∧
      ∀ cidDecode chainID,
        (Peers cidDecode localID exchange ipv4 chainID (pre ++ bad :: post)).2 =
          (cidDecode chainID).isSome := by
  intro localID exchange ipv4 pre post bad hbad
  constructor
  · have hemits : candidateEmits localID exchange ipv4 bad = [] := by
      rw [candidateEmits_eq]
      by_cases hcond : bad.id ≠ localID ∧ 0 < bad.addrs.length
      · rw [if_pos hcond]
        cases hex : exchange bad.id with
        | ok w => exact absurd hex (hbad w)
        | streamOpenFailed => rfl
        | decodeFailed => rfl
      · rw [if_neg hcond]
    simp [peersEmitted_eq_flatMap, List.flatMap_append, List.flatMap_cons, hemits]
  · intro cidDecode chainID
    cases hc : cidDecode chainID <;> simp [Peers, hc]

/-- Concrete exchange oracle for the C7 witness: the candidate `BADPEER`
fails to decode, every other candidate replies with a well-formed
record. -/
def c7Exchange : String → ExchangeResult := fun pid =>
  if pid = "BADPEER" then ExchangeResult.decodeFailed
  else ExchangeResult.ok { NodeID := pid, IP := some [], TendermintP2PPort := 26656 }

/-- C7 witness: with a malformed reply from `BADPEER` sandwiched between
two well-formed candidates, both of the latter are still delivered. -/
theorem c7_witness :
    peersEmitted "L" c7Exchange (fun _ => none)
        ([{ id := "A", addrs := ["x"] }] ++
          { id := "BADPEER", addrs := ["y"] } ::
            [{ id := "B", addrs := ["z"] }]) =
      peersEmitted "L" c7Exchange (fun _ => none) [{ id := "A", addrs := ["x"] }] ++
        peersEmitted "L" c7Exchange (fun _ => none) [{ id := "B", addrs := ["z"] }] :=
  (c7_per_candidate_failures_skipped "L" c7Exchange (fun _ => none)
    [{ id := "A", addrs := ["x"] }] [{ id := "B", addrs := ["z"] }]
    { id := "BADPEER", addrs := ["y"] }
    (fun w h => by simp [c7Exchange] at h)).1

/-- Go-channel-faithful model of the producer task: `ch` is unbuffered,
so the bare `ch <- peer` send of the source — which is NOT wrapped in a
`select` on the context's cancellation — completes only when the
consumer performs a receive.  `receives` is the number of receives the
consumer performs before abandoning the sequence (e.g. after the
timeout elapsed or the caller canceled).  A send past that budget
blocks the producer forever: the realized trace stops at that point,
the remaining candidates are never processed, and the deferred
`close(ch)` never runs.  The `Bool` records whether the producer
terminated, i.e. reached the deferred close. -/
def peersProducerBlocking (localID : String)
    (exchange : String → ExchangeResult) (ipv4 : String → Option String) :
    List Candidate → Nat → List PeersEvent × Bool
  | [], _ => ([PeersEvent.closeCh], true)
  | c :: cs, n =>
      if c.id ≠ localID ∧ 0 < c.addrs.length then
        match exchange c.id with
        | ExchangeResult.streamOpenFailed =>
            let rest := peersProducerBlocking localID exchange ipv4 cs n
            (PeersEvent.newStream c.id protocolID :: rest.1, rest.2)
        | ExchangeResult.decodeFailed =>
            let rest := peersProducerBlocking localID exchange ipv4 cs n
            (PeersEvent.newStream c.id protocolID :: rest.1, rest.2)
        | ExchangeResult.ok w =>
            match n with
            | 0 => ([PeersEvent.newStream c.id protocolID], false)
            | Nat.succ m =>
                let rest := peersProducerBlocking localID exchange ipv4 cs m
                (PeersEvent.newStream c.id protocolID ::
                  PeersEvent.emit (emittedRecord ipv4 c w) :: rest.1, rest.2)
      else peersProducerBlocking localID exchange ipv4 cs n

theorem peersProducerBlocking_drained (localID : String)
    (exchange : String → ExchangeResult) (ipv4 : String → Option String) :
    ∀ (candidates : List Candidate) (n : Nat),
      (peersEmitted localID exchange ipv4 candidates).length ≤ n →
      peersProducerBlocking localID exchange ipv4 candidates n =
        (peersProducerTrace localID exchange ipv4 candidates, true)
  | [], n => by
      intro _
      rfl
  | c :: cs, n => by
      intro hlen
      rw [peersEmitted_eq_flatMap] at hlen
      rw [List.flatMap_cons, List.length_append] at hlen
      rw [candidateEmits_eq] at hlen
      unfold peersProducerBlocking
      by_cases hcond : c.id ≠ localID ∧ 0 < c.addrs.length
      · rw [if_pos hcond] at hlen ⊢
        cases hex : exchange c.id with
        | streamOpenFailed =>
            rw [hex] at hlen
            simp only [List.length_nil, Nat.zero_add] at hlen
            rw [← peersEmitted_eq_flatMap] at hlen
            have ih := peersProducerBlocking_drained localID exchange ipv4 cs n hlen
            simp [peersProducerTrace, List.flatMap_cons, candidateEvents,
              if_pos hcond, hex, ih]
        | decodeFailed =>
            rw [hex] at hlen
            simp only [List.length_nil, Nat.zero_add] at hlen
            rw [← peersEmitted_eq_flatMap] at hlen
            have ih := peersProducerBlocking_drained localID exchange ipv4 cs n hlen
            simp [peersProducerTrace, List.flatMap_cons, candidateEvents,
              if_pos hcond, hex, ih]
        | ok w =>
            rw [hex] at hlen
            simp only [List.length_cons, List.length_nil] at hlen
            cases n with
            | zero => exact absurd hlen (by omega)
            | succ m =>
                have hm : (cs.flatMap (candidateEmits localID exchange ipv4)).length ≤ m := by
                  omega
                rw [← peersEmitted_eq_flatMap] at hm
                have ih := peersProducerBlocking_drained localID exchange ipv4 cs m hm
                simp [peersProducerTrace, List.flatMap_cons, candidateEvents,
                  if_pos hcond, hex, ih]
      · rw [if_neg hcond] at hlen ⊢
        simp only [List.length_nil, Nat.zero_add] at hlen
        rw [← peersEmitted_eq_flatMap] at hlen
        have ih := peersProducerBlocking_drained localID exchange ipv4 cs n hlen
        simp [peersProducerTrace, List.flatMap_cons, candidateEvents,
          if_neg hcond, ih]

/-- C8: the query bounds are exactly as claimed — limit 10 candidates,
10-second server-side timeout — but the claimed termination-and-close
guarantee fails in the program: the record is sent with a bare
unbuffered `ch <- peer`, with no `select` on the context, so when the
consumer abandons the sequence without draining (here: zero receives
after cancellation or timeout expiry), the producer blocks forever on
the send for the single well-formed candidate, never terminates, and
the deferred `close(ch)` never runs, even though provider enumeration
is already exhausted.  The claim (and the spec's own requirement that
the task stop promptly on abandonment and automatically on timeout)
describes the intended behaviour; the missing `select` is the slip. -/
theorem c8_producer_blocks_when_consumer_abandons :
    PeersEvent.findProviders "QmY" findProvidersLimit findProvidersTimeoutSeconds ∈
      (Peers (fun s => some s) "L" c7Exchange (fun _ => none) "QmY"
        [{ id := "A", addrs := ["x"] }]).1 ∧
    findProvidersLimit = 10 ∧ findProvidersTimeoutSeconds = 10 ∧
    peersProducerBlocking "L" c7Exchange (fun _ => none)
        [{ id := "A", addrs := ["x"] }] 0 =
      ([PeersEvent.newStream "A" protocolID], false) ∧
    PeersEvent.closeCh ∉
      (peersProducerBlocking "L" c7Exchange (fun _ => none)
          [{ id := "A", addrs := ["x"] }] 0).1 := by
  refine ⟨by decide, rfl, rfl, by decide, by decide⟩

/-- C9: every record emitted by `Peers` carries an actual IP list, never
the nil slice: a `nil`/absent `ips` field of the wire reply is replaced
by the empty list before the observed IPv4 addresses are appended. -/
theorem c9_emitted_ip_never_nil :
    ∀ (localID : String) (exchange : String → ExchangeResult)
      (ipv4 : String → Option String) (candidates : List Candidate),
      (∀ r ∈ peersEmitted localID exchange ipv4 candidates, ∃ l, r.IP = some l) ∧
      ∀ c w, c.id ≠ localID → 0 < c.addrs.length →
        exchange c.id = ExchangeResult.ok w → w.IP = none →
        candidateEmits localID exchange ipv4 c =
          [{ w with IP := some (observedIPv4 ipv4 c.addrs) }] := by
  intro localID exchange ipv4 candidates
  constructor
  · intro r hr
    rcases mem_peersEmitted localID exchange ipv4 candidates r hr with
      ⟨c, _, _, _, w, _, heq⟩
    exact ⟨_, heq ▸ emittedRecord_IP ipv4 c w⟩
  · intro c w hne hlen hex hnil
    rw [candidateEmits_eq, if_pos ⟨hne, hlen⟩, hex]
    cases w with
    | mk n ip p =>
        cases hnil
        rfl

/-- C9 witness: a remote reply with a nulled `ips` field yields a record
whose IP list is the (empty) observed-address list, not nil. -/
theorem c9_witness :
    candidateEmits "L"
        (fun _ => ExchangeResult.ok
          { NodeID := "A", IP := none, TendermintP2PPort := 26656 })
        (fun _ => none) { id := "A", addrs := ["x"] } =
      [{ NodeID := "A",
         IP := some (observedIPv4 (fun _ => none) ["x"]),
         TendermintP2PPort := 26656 }] :=
  (c9_emitted_ip_never_nil "L"
      (fun _ => ExchangeResult.ok
        { NodeID := "A", IP := none, TendermintP2PPort := 26656 })
      (fun _ => none) []).2
    { id := "A", addrs := ["x"] }
    { NodeID := "A", IP := none, TendermintP2PPort := 26656 }
    (by decide) (by decide) rfl rfl

/-- C10: a candidate whose DHT record carries an empty address list is
silently skipped — it contributes no events at all (no stream attempt, no
emission), even when it is not the local node, and the producer trace is
the same as if the candidate were absent. -/
theorem c10_empty_address_candidates_skipped :
    ∀ (localID : String) (exchange : String → ExchangeResult)
      (ipv4 : String → Option String) (pre post : List Candidate)
      (c : Candidate),
      c.addrs = [] →
      candidateEvents localID exchange ipv4 c = [] ∧
      peersProducerTrace localID exchange ipv4 (pre ++ c :: post) =
        peersProducerTrace localID exchange ipv4 (pre ++ post) := by
  intro localID exchange ipv4 pre post c haddrs
  have hev : candidateEvents localID exchange ipv4 c = [] := by
    unfold candidateEvents
    rw [if_neg]
    intro h
    rw [haddrs] at h
    exact absurd h.2 (by decide)
  refine ⟨hev, ?_⟩
  simp [peersProducerTrace, List.flatMap_append, List.flatMap_cons, hev]

/-- C10 witness: a non-local candidate with no addresses contributes no
events; the trace equals the one without it. -/
theorem c10_witness :
    candidateEvents "L" c7Exchange (fun _ => none) { id := "A", addrs := [] } = [] ∧
    peersProducerTrace "L" c7Exchange (fun _ => none)
        ([{ id := "B", addrs := ["x"] }] ++ { id := "A", addrs := [] } :: []) =
      peersProducerTrace "L" c7Exchange (fun _ => none)
        ([{ id := "B", addrs := ["x"] }] ++ []) :=
  c10_empty_address_candidates_skipped "L" c7Exchange (fun _ => none)
    [{ id := "B", addrs := ["x"] }] [] { id := "A", addrs := [] } rfl

theorem publish_ok_links (env : PublishEnv) (m g i cidStr : String) :
    (Publish env m g i).1 = Except.ok cidStr →
    (Publish env m g i).2 =
      [("chainkit.yml", m), ("genesis.json", g), ("image.tgz", i)] := by
  intro h
  unfold Publish at h ⊢
  cases h1 : env.tempDir with
  | error e => simp [h1] at h
  | ok sandbox =>
    simp only [h1] at h ⊢
    cases h2 : env.stat sandbox with
    | error e => simp [h2] at h
    | ok u2 =>
      simp only [h2] at h ⊢
      cases h3 : env.link m (pathJoin sandbox "chainkit.yml") with
      | error e => simp [h3] at h
      | ok u3 =>
        simp only [h3] at h ⊢
        cases h4 : env.link g (pathJoin sandbox "genesis.json") with
        | error e => simp [h4] at h
        | ok u4 =>
          simp only [h4] at h ⊢
          cases h5 : env.link i (pathJoin sandbox "image.tgz") with
          | error e => simp [h5] at h
          | ok u5 =>
            simp only [h5] at h ⊢
            cases h6 : env.unixfsAdd sandbox
                [("chainkit.yml", m), ("genesis.json", g), ("image.tgz", i)] with
            | error e => simp [h6] at h
            | ok c => simp only [h6]

theorem join_ok_paths (jenv : JoinEnv) (chainID : String) (ni : NetworkInfo)
    (hid : ∀ p, jenv.parsePath p = Except.ok p) :
    (Join jenv chainID).1 = Except.ok ni →
    (Join jenv chainID).2 =
      [joinPath chainID "chainkit.yml", joinPath chainID "genesis.json",
       joinPath chainID "image.tgz"] := by
  intro h
  unfold Join at h ⊢
  simp only [hid, Except.toOption, Option.getD] at h ⊢
  cases hg1 : jenv.get (joinPath chainID "chainkit.yml") with
  | error e => simp [hg1] at h
  | ok f1 =>
    simp only [hg1] at h ⊢
    cases hr1 : jenv.readAll f1 with
    | error e => simp [hr1] at h
    | ok d1 =>
      simp only [hr1] at h ⊢
      cases hg2 : jenv.get (joinPath chainID "genesis.json") with
      | error e => simp [hg2] at h
      | ok f2 =>
        simp only [hg2] at h ⊢
        cases hr2 : jenv.readAll f2 with
        | error e => simp [hr2] at h
        | ok d2 =>
          simp only [hr2] at h ⊢
          cases hg3 : jenv.get (joinPath chainID "image.tgz") with
          | error e => simp [hg3] at h
          | ok f3 => simp only [hg3]

/-- Environment in which every Publish step succeeds. -/
def c2Env : PublishEnv where
  tempDir := Except.ok "/tmp/chainkit-network"
  stat := fun _ => Except.ok ()
  link := fun _ _ => Except.ok ()
  unixfsAdd := fun _ _ => Except.ok "QmNETWORK"

/-- C2 counterexample: at a concrete successful `Publish`, the child
names staged into the content-addressed unit are NOT
`manifest`/`genesis`/`image` — the source stages `chainkit.yml`,
`genesis.json` and `image.tgz`. -/
theorem c2_counterexample :
    (Publish c2Env "m.yml" "g.json" "i.tgz").2.map Prod.fst ≠
      ["manifest", "genesis", "image"] := by decide

/-- C2 amended: every successful `Publish(manifestPath, genesisPath,
imagePath)` stages the three artifacts into one content-addressed unit
under the child names `chainkit.yml`, `genesis.json` and `image.tgz` (in
that roles' order), and those same three names are exactly the children
the resolver fetches under the identifier a successful `Join` resolves
(`/ipfs/<chainID>/<name>` for each staged name). -/
theorem c2_staged_names_match_fetched_names :
    ∀ (env : PublishEnv) (m g i cidStr : String),
      (Publish env m g i).1 = Except.ok cidStr →
      (Publish env m g i).2.map Prod.fst =
          ["chainkit.yml", "genesis.json", "image.tgz"] ∧
        ∀ (jenv : JoinEnv) (chainID : String) (ni : NetworkInfo),
          (∀ p, jenv.parsePath p = Except.ok p) →
          (Join jenv chainID).1 = Except.ok ni →
          (Join jenv chainID).2 =
            ((Publish env m g i).2.map Prod.fst).map (joinPath chainID) := by
  intro env m g i cidStr h
  have hlinks := publish_ok_links env m g i cidStr h
  constructor
  · rw [hlinks]; rfl
  · intro jenv chainID ni hid hj
    rw [join_ok_paths jenv chainID ni hid hj, hlinks]
    rfl

/-- Join environment in which every artifact resolves and reads. -/
def c2JoinEnv : JoinEnv where
  parsePath := fun p => Except.ok p
  get := fun _ => Except.ok 0
  readAll := fun _ => Except.ok []

/-- C2 witness: concrete successful `Publish` and `Join` agreeing on the
three child names. -/
theorem c2_witness :
    (Publish c2Env "m.yml" "g.json" "i.tgz").2.map Prod.fst =
      ["chainkit.yml", "genesis.json", "image.tgz"] ∧
    (Join c2JoinEnv "QmNETWORK").2 =
      ((Publish c2Env "m.yml" "g.json" "i.tgz").2.map Prod.fst).map
        (joinPath "QmNETWORK") :=
  let h := c2_staged_names_match_fetched_names c2Env "m.yml" "g.json" "i.tgz"
    "QmNETWORK" rfl
  ⟨h.1, h.2 c2JoinEnv "QmNETWORK" { Manifest := [], Genesis := [], Image := 0 }
    (fun _ => rfl) rfl⟩

/-- Join environment where the manifest artifact resolves but reading its
bytes fails with an I/O error, while the genesis and image artifacts are
perfectly present and readable. -/
def c1Env : JoinEnv where
  parsePath := fun p => Except.ok p
  get := fun p =>
    if p = joinPath "QmDemoNet" "chainkit.yml" then Except.ok 0
    else if p = joinPath "QmDemoNet" "genesis.json" then Except.ok 1
    else Except.ok 2
  readAll := fun h =>
    if h = 0 then Except.error "read: i/o error" else Except.ok [103]

/-- C1: when reading the MANIFEST artifact fails (the genesis artifact is
present and readable), `Join` returns the error wrapped as
`"unable to read genesis file"` — the failure is misattributed to the
genesis artifact, and no error of `Join` carries a `ContentNotFound`
naming of the actually missing artifact; the claim describes the
intended behaviour, the source's manifest-read wrap message is a
copy-paste slip. -/
theorem c1_manifest_failure_misattributed_to_genesis :
    (Join c1Env "QmDemoNet").1 =
      Except.error "unable to read genesis file: read: i/o error" ∧
    c1Env.readAll 1 = Except.ok [103] ∧
    c1Env.readAll 0 = Except.error "read: i/o error" :=
  ⟨rfl, rfl, rfl⟩

/-- Environment in which every `Start` step succeeds except the final DHT
construction. -/
def c5Env : StartEnv where
  lockedByOtherProcess := Except.ok false
  loadPlugins := Except.ok ()
  isInitialized := true
  ipfsInit := Except.ok ()
  openRepo := Except.ok ()
  setConfigKey := Except.ok ()
  newNode := Except.ok ()
  dhtNew := Except.error "dht: init failed"

/-- Like `c5Env` but failing at the swarm-address configuration step,
right after the repository was opened. -/
def c5EnvConfigFail : StartEnv :=
  { c5Env with
    setConfigKey := Except.error "config: set failed",
    dhtNew := Except.ok () }

/-- C5: `Start` paths that fail after a resource was opened return the
error WITHOUT releasing it: a DHT construction failure leaves the fully
constructed overlay node open, and a configuration failure leaves the
opened repository (and its lock) held — contradicting the claim that
every resource opened on a failed path is released before `Start`
returns. -/
theorem c5_failed_start_retains_resources :
    Start c5Env = (Except.error "dht: init failed", [Resource.node]) ∧
    Start c5EnvConfigFail =
      (Except.error "config: set failed", [Resource.repo]) :=
  ⟨rfl, rfl⟩

end Discovery

section SanityChecks

example : (Discovery.dhtConnect fun _ => false).getLast? =
    some Discovery.BootEvent.closeReady := by decide

example : Discovery.waitBlocks (Discovery.dhtConnect fun _ => false) = false := by
  decide

example :
    Discovery.peersEmitted "L"
      (fun _ => Discovery.ExchangeResult.ok
        { NodeID := "L", IP := some [], TendermintP2PPort := 26656 })
      (fun _ => none)
      [{ id := "A", addrs := ["x"] }] =
      [{ NodeID := "L", IP := some [], TendermintP2PPort := 26656 }] := by
  decide

example :
    Discovery.peersEmitted "L" (fun _ => Discovery.ExchangeResult.decodeFailed)
      (fun _ => none) [{ id := "A", addrs := ["x"] }] = [] := by decide

example :
    (Discovery.Peers (fun s => some s) "L"
      (fun _ => Discovery.ExchangeResult.streamOpenFailed) (fun _ => none)
      "Qm" []).1 =
    [Discovery.PeersEvent.waitReady,
     Discovery.PeersEvent.findProviders "Qm" 10 10,
     Discovery.PeersEvent.closeCh] := by decide

end SanityChecks
